import Mathlib

/-!
Shallow embedding of the VSC media module: active-media selection and the
anti-reset playback-rate guard, translated from src/content/media.js
(chooseActiveMedia, applySpeed, setupAntiReset's handleRateChange,
setPreferredSpeed, resetSpeed) and src/content/utils.js (clamp).

Playback rates flow through JavaScript number arithmetic (Math.max, Math.min,
Math.abs, subtraction, the comparison operators and truthiness), so rates are
modelled by a JS-number type with NaN and the two infinities over exact
rationals; timestamps (Date.now values) are integers and selection scores are
rationals.  A media element together with its registry entry is one record:
the fields paused, visibility, rectW, rectH and playbackRate mirror the
element-side observations the code reads (media.paused,
utils.getIntersectionRatio(media), media.getBoundingClientRect(),
media.playbackRate), and lastInteraction, preferredSpeed, antiResetUntil
mirror the registry entry.  preferredSpeed and antiResetUntil start out as
absent JavaScript properties, hence Option.  Overlay-display updates and
debug logging are presentational and carry no state the claims mention.
-/

namespace VSC

/-- A JavaScript number: NaN, one of the infinities, or an exact finite
value.  Finite values are exact rationals; every computation the claims
touch stays exact in double precision as well. -/
inductive JSNum where
  | nan : JSNum
  | posInf : JSNum
  | negInf : JSNum
  | fin : ℚ → JSNum
deriving DecidableEq

namespace JSNum

/-- JavaScript Math.max on two arguments: NaN absorbs, infinities order as
expected. -/
def jsMax : JSNum → JSNum → JSNum
  | nan, _ => nan
  | _, nan => nan
  | posInf, _ => posInf
  | _, posInf => posInf
  | negInf, b => b
  | a, negInf => a
  | fin a, fin b => fin (max a b)

/-- JavaScript Math.min on two arguments. -/
def jsMin : JSNum → JSNum → JSNum
  | nan, _ => nan
  | _, nan => nan
  | negInf, _ => negInf
  | _, negInf => negInf
  | posInf, b => b
  | a, posInf => a
  | fin a, fin b => fin (min a b)

/-- JavaScript subtraction. -/
def sub : JSNum → JSNum → JSNum
  | nan, _ => nan
  | _, nan => nan
  | posInf, posInf => nan
  | posInf, _ => posInf
  | negInf, negInf => nan
  | negInf, _ => negInf
  | fin _, posInf => negInf
  | fin _, negInf => posInf
  | fin a, fin b => fin (a - b)

/-- JavaScript Math.abs. -/
def abs : JSNum → JSNum
  | nan => nan
  | posInf => posInf
  | negInf => posInf
  | fin q => fin |q|

/-- The JavaScript strict less-than comparison: any comparison with NaN is
false. -/
def lt : JSNum → JSNum → Bool
  | nan, _ => false
  | _, nan => false
  | posInf, _ => false
  | _, posInf => true
  | negInf, negInf => false
  | negInf, _ => true
  | _, negInf => false
  | fin a, fin b => decide (a < b)

/-- The JavaScript strict greater-than comparison. -/
def gt (a b : JSNum) : Bool := lt b a

/-- JavaScript truthiness of a number: NaN and 0 are falsy, everything else
is truthy. -/
def truthy : JSNum → Bool
  | nan => false
  | posInf => true
  | negInf => true
  | fin q => decide (q ≠ 0)

end JSNum

/-- The JavaScript expression `v || d` for an optionally-present numeric
property `v`: an absent property is undefined and falsy, and a present but
falsy number (0 or NaN) also falls through to the default. -/
def jsOr (v : Option JSNum) (d : JSNum) : JSNum :=
  match v with
  | none => d
  | some x => if x.truthy then x else d

/-- utils.clamp from src/content/utils.js:
Math.min(Math.max(value, min), max). -/
def clamp (value lo hi : JSNum) : JSNum :=
  JSNum.jsMin (JSNum.jsMax value lo) hi

/-- One registered media element together with its registry entry, carrying
exactly the observations media.js reads: the element side (paused,
intersection ratio, bounding-rect width and height, playbackRate) and the
entry side (lastInteraction, preferredSpeed, antiResetUntil).  The id field
stands for the element's identity (the registry key), letting distinct
elements with equal observations stay distinct. -/
structure MediaEntry where
  id : ℕ
  paused : Bool
  visibility : ℚ
  rectW : ℚ
  rectH : ℚ
  lastInteraction : ℤ
  playbackRate : JSNum
  preferredSpeed : Option JSNum
  antiResetUntil : Option ℤ
deriving DecidableEq

/-- The score one entry receives in chooseActiveMedia (media.js lines
159-183): 1000 when not paused, plus visibility times 500, plus
(5000 - timeSinceInteraction) / 10 when timeSinceInteraction < 5000, plus
rect area over 10000.  Written in the same accumulation order as the
source. -/
def score (now : ℤ) (e : MediaEntry) : ℚ :=
  let s0 : ℚ := 0
  let s1 : ℚ := if e.paused then s0 else s0 + 1000
  let s2 : ℚ := s1 + e.visibility * 500
  let timeSince : ℚ := (now : ℚ) - (e.lastInteraction : ℚ)
  let s3 : ℚ := if timeSince < 5000 then s2 + (5000 - timeSince) / 10 else s2
  s3 + e.rectW * e.rectH / 10000

/-- The element scored[0] denotes after the stable descending sort
`scored.sort((a, b) => b.score - a.score)` (media.js line 186): the first
entry in original order whose score no later entry strictly exceeds.  The
accumulator is replaced only on a strictly larger score, which is exactly
stability of the sort. -/
def bestEntry (now : ℤ) : MediaEntry → List MediaEntry → MediaEntry
  | best, [] => best
  | best, e :: rest =>
      bestEntry now (if score now best < score now e then e else best) rest

/-- chooseActiveMedia (media.js lines 153-188) over the registry snapshot in
registration order: none when empty, the sole entry when there is exactly
one (returned before any scoring), otherwise the first entry of maximal
score. -/
def chooseActiveMedia (now : ℤ) : List MediaEntry → Option MediaEntry
  | [] => none
  | [e] => some e
  | e :: rest => some (bestEntry now e rest)

/-- The guard test `entry.antiResetUntil && Date.now() < entry.antiResetUntil`
shared by applySpeed (line 218) and handleRateChange (line 287): the stored
deadline must be a present, truthy (nonzero) number and strictly in the
future. -/
def guardActive (e : MediaEntry) (now : ℤ) : Bool :=
  match e.antiResetUntil with
  | none => false
  | some t => decide (t ≠ 0) && decide (now < t)

/-- applySpeed (media.js lines 211-241) as a state transformer on the entry.
When force is false and the anti-reset guard is active the call returns
early; otherwise the speed is clamped to [0.25, 4.0], written to the
element, and the guard deadline is set to now + 500.  The overlay update is
presentational and the try/catch only logs.  (In a real browser, assigning
NaN to playbackRate raises and is swallowed by the catch; the model performs
the assignment the source states, which is all claim C6 needs.) -/
def applySpeed (e : MediaEntry) (speed : JSNum) (force : Bool) (now : ℤ) :
    MediaEntry :=
  if !force && guardActive e now then e
  else
    { e with
      playbackRate := clamp speed (JSNum.fin (1/4)) (JSNum.fin 4),
      antiResetUntil := some (now + 500) }

/-- The handleRateChange closure installed by setupAntiReset (media.js lines
286-294), returning the updated state and whether it wrote the element's
rate: inside an active guard window, when the current rate diverges from
`entry.preferredSpeed || 1.0` by more than 0.01, the preferred rate is
written back. -/
def handleRateChange (e : MediaEntry) (now : ℤ) : MediaEntry × Bool :=
  if guardActive e now then
    let preferred := jsOr e.preferredSpeed (JSNum.fin 1)
    if ((e.playbackRate.sub preferred).abs).gt (JSNum.fin (1/100)) then
      ({ e with playbackRate := preferred }, true)
    else (e, false)
  else (e, false)

/-- setPreferredSpeed (media.js lines 316-322): records the preferred speed
and resets the guard deadline to now + 500. -/
def setPreferredSpeed (e : MediaEntry) (speed : JSNum) (now : ℤ) : MediaEntry :=
  { e with preferredSpeed := some speed, antiResetUntil := some (now + 500) }

/-- resetSpeed (media.js lines 269-271): a forced apply of 1.0. -/
def resetSpeed (e : MediaEntry) (now : ℤ) : MediaEntry :=
  applySpeed e (JSNum.fin 1) true now

/-- Whether a JS number is a finite value inside the clamping range
[0.25, 4.0]. -/
def inClampRange : JSNum → Bool
  | JSNum.fin q => decide (1/4 ≤ q ∧ q ≤ 4)
  | _ => false

end VSC

attribute [local semireducible] Rat.mul Rat.add Rat.sub Rat.inv

namespace VSC

/-- The running maximum scanned by the sort is one of the scanned entries. -/
theorem bestEntry_mem (now : ℤ) (b : MediaEntry) (l : List MediaEntry) :
    bestEntry now b l ∈ b :: l := by
  induction l generalizing b with
  | nil => simp [bestEntry]
  | cons e rest ih =>
    simp only [bestEntry]
    have h := ih (if score now b < score now e then e else b)
    rcases List.mem_cons.mp h with h1 | h2
    · rw [h1]
      split
      · exact List.mem_cons_of_mem _ (List.mem_cons_self _ _)
      · exact List.mem_cons_self _ _
    · exact List.mem_cons_of_mem _ (List.mem_cons_of_mem _ h2)

/-- No scanned entry scores strictly above the running maximum. -/
theorem score_le_bestEntry (now : ℤ) (b : MediaEntry) (l : List MediaEntry) :
    ∀ x ∈ b :: l, score now x ≤ score now (bestEntry now b l) := by
  induction l generalizing b with
  | nil =>
    intro x hx
    rw [List.mem_singleton] at hx
    subst hx
    simp [bestEntry]
  | cons e rest ih =>
    intro x hx
    simp only [bestEntry]
    have hb : score now b ≤ score now (if score now b < score now e then e else b) := by
      split
      · next hlt => exact le_of_lt hlt
      · exact le_refl _
    have he : score now e ≤ score now (if score now b < score now e then e else b) := by
      split
      · exact le_refl _
      · next hlt => exact le_of_not_lt hlt
    have hbest := ih (if score now b < score now e then e else b)
    rcases List.mem_cons.mp hx with h1 | h2
    · subst h1
      exact le_trans hb (hbest _ (List.mem_cons_self _ _))
    · rcases List.mem_cons.mp h2 with h3 | h4
      · subst h3
        exact le_trans he (hbest _ (List.mem_cons_self _ _))
      · exact hbest x (List.mem_cons_of_mem _ h4)

/-- When the last interaction is at least 5000ms old the recency bonus is
gone and the score is the playing bonus plus the visibility and area
bonuses. -/
theorem score_of_stale (now : ℤ) (x : MediaEntry)
    (hrec : x.lastInteraction + 5000 ≤ now) :
    score now x = (if x.paused then 0 else 1000) + x.visibility * 500
      + x.rectW * x.rectH / 10000 := by
  have h : ¬ ((now : ℚ) - (x.lastInteraction : ℚ) < 5000) := by
    have h5 : (x.lastInteraction : ℚ) + 5000 ≤ (now : ℚ) := by
      exact_mod_cast hrec
    linarith
  simp only [score]
  rw [if_neg h]
  split <;> ring

/-- A paused entry with visibility at most 1, area below five million square
pixels and no recent interaction scores strictly below 1000. -/
theorem score_lt_1000_of_paused (now : ℤ) (x : MediaEntry)
    (hp : x.paused = true)
    (hvis : x.visibility ≤ 1)
    (harea : x.rectW * x.rectH < 5000000)
    (hrec : x.lastInteraction + 5000 ≤ now) :
    score now x < 1000 := by
  rw [score_of_stale now x hrec, hp]
  have h1 : x.visibility * 500 ≤ 500 := by nlinarith
  have h2 : x.rectW * x.rectH / 10000 < 500 :=
    (div_lt_iff₀ (by norm_num : (0:ℚ) < 10000)).mpr (by linarith)
  rw [if_pos rfl]
  linarith

/-- A playing entry with nonnegative visibility and rect scores at least
1000 once its recency bonus has expired. -/
theorem score_ge_1000_of_playing (now : ℤ) (x : MediaEntry)
    (hp : x.paused = false)
    (hvis : 0 ≤ x.visibility)
    (hw : 0 ≤ x.rectW) (hh : 0 ≤ x.rectH)
    (hrec : x.lastInteraction + 5000 ≤ now) :
    (1000 : ℚ) ≤ score now x := by
  rw [score_of_stale now x hrec, hp]
  have h1 : 0 ≤ x.visibility * 500 := by nlinarith
  have h2 : 0 ≤ x.rectW * x.rectH / 10000 :=
    div_nonneg (mul_nonneg hw hh) (by norm_num)
  rw [if_neg Bool.false_ne_true]
  linarith

/-- C1 counterexample: the claim that chooseActiveMedia always returns a
playing handle when one exists fails on the code.  In the first list the
playing first entry scores 1000 while the paused second entry is fully
visible, was interacted with at the current instant and has a 500 by 200
rect, scoring 500 + 500 + 10 = 1010; in the second list the paused entry has
a 5000 by 4000 rect and scores 2000 from area alone.  Both selections land
on the paused entry. -/
theorem chooseActiveMedia_returns_paused_counterexample :
    ((chooseActiveMedia 0
        [⟨0, false, 0, 0, 0, -9000, JSNum.fin 1, none, none⟩,
         ⟨1, true, 1, 500, 200, 0, JSNum.fin 1, none, none⟩]).map MediaEntry.paused
      = some true) ∧
    ((chooseActiveMedia 0
        [⟨0, false, 0, 0, 0, -9000, JSNum.fin 1, none, none⟩,
         ⟨2, true, 0, 5000, 4000, -9000, JSNum.fin 1, none, none⟩]).map MediaEntry.paused
      = some true) := by
  exact ⟨by decide, by decide⟩

/-- C1 (amended): chooseActiveMedia returns a playing handle whenever one is
registered, provided no handle carries a live recency bonus (every last
interaction is at least 5000ms old), every visibility ratio lies in [0, 1]
(as getIntersectionRatio guarantees for well-formed rects) and every rect is
nonnegative with area below 5000000 square pixels; without those bounds the
paused-side bonuses can exceed the 1000-point playing bonus, as the
counterexample shows. -/
theorem chooseActiveMedia_returns_playing (now : ℤ) (l : List MediaEntry)
    (hplay : ∃ p ∈ l, p.paused = false)
    (hvis : ∀ x ∈ l, 0 ≤ x.visibility ∧ x.visibility ≤ 1)
    (hrect : ∀ x ∈ l, 0 ≤ x.rectW ∧ 0 ≤ x.rectH ∧ x.rectW * x.rectH < 5000000)
    (hrec : ∀ x ∈ l, x.lastInteraction + 5000 ≤ now) :
    ∃ a, chooseActiveMedia now l = some a ∧ a.paused = false := by
  obtain ⟨p, hpmem, hpplay⟩ := hplay
  cases l with
  | nil => exact absurd hpmem (List.not_mem_nil p)
  | cons e tail =>
    cases tail with
    | nil =>
      refine ⟨e, rfl, ?_⟩
      have hpe : p = e := by simpa using hpmem
      rw [← hpe]
      exact hpplay
    | cons f rest =>
      refine ⟨bestEntry now e (f :: rest), by simp [chooseActiveMedia], ?_⟩
      have hmemB := bestEntry_mem now e (f :: rest)
      have hscore := score_le_bestEntry now e (f :: rest) p hpmem
      have h1000 : (1000 : ℚ) ≤ score now p :=
        score_ge_1000_of_playing now p hpplay (hvis p hpmem).1
          (hrect p hpmem).1 (hrect p hpmem).2.1 (hrec p hpmem)
      by_contra hB
      rw [Bool.not_eq_false] at hB
      have hlt : score now (bestEntry now e (f :: rest)) < 1000 :=
        score_lt_1000_of_paused now _ hB (hvis _ hmemB).2
          (hrect _ hmemB).2.2 (hrec _ hmemB)
      linarith

/-- Witness for C1: a concrete two-element list meeting all the amended
hypotheses, on which the theorem yields a playing selection. -/
theorem chooseActiveMedia_returns_playing_witness :
    ∃ a, chooseActiveMedia 0
        [⟨0, false, 1, 100, 100, -9000, JSNum.fin 1, none, none⟩,
         ⟨1, true, 1, 100, 100, -9000, JSNum.fin 1, none, none⟩] = some a ∧
      a.paused = false :=
  chooseActiveMedia_returns_playing 0 _
    ⟨⟨0, false, 1, 100, 100, -9000, JSNum.fin 1, none, none⟩, by decide, rfl⟩
    (by decide) (by decide) (by decide)

/-- C9 (confirmed): on a registry snapshot with exactly one entry,
chooseActiveMedia returns that entry whatever its playing state, visibility,
interaction history or size: the singleton branch returns before any score
is computed. -/
theorem chooseActiveMedia_singleton (now : ℤ) (e : MediaEntry) :
    chooseActiveMedia now [e] = some e := rfl

end VSC

namespace VSC

/-- C2 (confirmed): for a guarded handle carrying a recorded preferred rate
p and a guard deadline g (recorded deadlines are Date.now() + 500, hence
positive, and recorded preferred rates are clamped nonzero values, hence
the truthiness side conditions), a rate-change observation strictly before
the deadline whose current rate diverges from p by more than 0.01 rewrites
the rate to exactly p, while an observation at or after the deadline
performs no write and leaves the state unchanged. -/
theorem handleRateChange_guard_correction (e : MediaEntry) (p r : ℚ)
    (g now1 now2 : ℤ)
    (hpref : e.preferredSpeed = some (JSNum.fin p)) (hp0 : p ≠ 0)
    (hg : e.antiResetUntil = some g) (hgpos : 0 < g)
    (hr : e.playbackRate = JSNum.fin r)
    (hdiff : 1/100 < |r - p|)
    (hnow1 : now1 < g) (hnow2 : g ≤ now2) :
    handleRateChange e now1 = ({ e with playbackRate := JSNum.fin p }, true) ∧
    handleRateChange e now2 = (e, false) := by
  have hga1 : guardActive e now1 = true := by
    simp only [guardActive, hg, Bool.and_eq_true, decide_eq_true_eq]
    omega
  have hga2 : guardActive e now2 = false := by
    simp only [guardActive, hg, Bool.and_eq_false_iff, decide_eq_false_iff_not]
    omega
  constructor
  · simp [handleRateChange, hga1, hpref, hr, jsOr, JSNum.truthy, hp0,
      JSNum.sub, JSNum.abs, JSNum.gt, JSNum.lt]
    linarith
  · simp [handleRateChange, hga2]

/-- Witness for C2: preferred rate 1.5 with deadline 500; the observation of
rate 1.0 at time 100 corrects back to 1.5, the one at time 600 does not. -/
theorem handleRateChange_guard_correction_witness :
    handleRateChange
        ⟨0, false, 0, 0, 0, 0, JSNum.fin 1, some (JSNum.fin (3/2)), some 500⟩ 100
      = (⟨0, false, 0, 0, 0, 0, JSNum.fin (3/2), some (JSNum.fin (3/2)), some 500⟩,
          true) ∧
    handleRateChange
        ⟨0, false, 0, 0, 0, 0, JSNum.fin 1, some (JSNum.fin (3/2)), some 500⟩ 600
      = (⟨0, false, 0, 0, 0, 0, JSNum.fin 1, some (JSNum.fin (3/2)), some 500⟩,
          false) :=
  handleRateChange_guard_correction _ (3/2) 1 500 100 600 rfl (by norm_num) rfl
    (by norm_num) rfl
    (by rw [show (1 : ℚ) - 3/2 = -(1/2) by norm_num, abs_neg,
          abs_of_pos (by norm_num : (0:ℚ) < 1/2)]; norm_num)
    (by norm_num) (by norm_num)

/-- C3 counterexample: with an active guard (now 500 is before the deadline
1000) and recorded preferred rate 1.5, a forced apply of 2.0 does write the
element's rate (the bypass holds) but leaves preferredSpeed at 1.5: contrary
to the claim, applySpeed never updates the recorded preferred rate. -/
theorem applySpeed_force_preferred_counterexample :
    (applySpeed ⟨0, false, 0, 0, 0, 0, JSNum.fin (3/2), some (JSNum.fin (3/2)), some 1000⟩
        (JSNum.fin 2) true 500).playbackRate = JSNum.fin 2 ∧
    (applySpeed ⟨0, false, 0, 0, 0, 0, JSNum.fin (3/2), some (JSNum.fin (3/2)), some 1000⟩
        (JSNum.fin 2) true 500).preferredSpeed = some (JSNum.fin (3/2)) ∧
    some (JSNum.fin (3/2)) ≠ some (JSNum.fin 2) := by
  exact ⟨by decide, by decide, by decide⟩

/-- C3 (amended): a forced apply bypasses any guard window unconditionally
(the clamped rate is written and the deadline reset to now + 500 whatever
the prior guard state), but it does not update the entry's recorded
preferredSpeed, which keeps its previous value; only setPreferredSpeed
records a preferred rate. -/
theorem applySpeed_force_bypasses_guard (e : MediaEntry) (r : ℚ) (now : ℤ) :
    (applySpeed e (JSNum.fin r) true now).playbackRate
        = JSNum.fin (min (max r (1/4)) 4) ∧
    (applySpeed e (JSNum.fin r) true now).antiResetUntil = some (now + 500) ∧
    (applySpeed e (JSNum.fin r) true now).preferredSpeed = e.preferredSpeed := by
  simp [applySpeed, clamp, JSNum.jsMax, JSNum.jsMin]

/-- C4 counterexample: the "only setPreferredSpeed resets the deadline"
part of the claim fails: a successful applySpeed (here on an unguarded
entry) also sets antiResetUntil to now + 500 (media.js line 230). -/
theorem deadline_reset_not_only_setPreferred :
    (⟨0, false, 0, 0, 0, 0, JSNum.fin 1, none, none⟩ : MediaEntry).antiResetUntil
        = none ∧
    (applySpeed ⟨0, false, 0, 0, 0, 0, JSNum.fin 1, none, none⟩
        (JSNum.fin 2) false 200).antiResetUntil = some 700 := by
  exact ⟨rfl, by decide⟩

/-- C4 (amended): a corrective rewrite by the rate-change handler leaves
both the guard deadline and the recorded preferred speed unchanged
(corrections never extend the window), and setPreferredSpeed resets the
deadline to now + 500 while recording the rate; but setPreferredSpeed is
not the only writer of the deadline: a successful applySpeed also sets it
to now + 500 (a no-op applySpeed leaves the entry untouched). -/
theorem guard_deadline_frame (e : MediaEntry) (now t1 t2 : ℤ) (r s : ℚ)
    (f : Bool) :
    (handleRateChange e now).1.antiResetUntil = e.antiResetUntil ∧
    (handleRateChange e now).1.preferredSpeed = e.preferredSpeed ∧
    (setPreferredSpeed e (JSNum.fin r) t1).antiResetUntil = some (t1 + 500) ∧
    (setPreferredSpeed e (JSNum.fin r) t1).preferredSpeed = some (JSNum.fin r) ∧
    (applySpeed e (JSNum.fin s) f t2 = e ∨
      (applySpeed e (JSNum.fin s) f t2).antiResetUntil = some (t2 + 500)) := by
  refine ⟨?_, ?_, rfl, rfl, ?_⟩
  · dsimp only [handleRateChange]
    split
    · split <;> rfl
    · rfl
  · dsimp only [handleRateChange]
    split
    · split <;> rfl
    · rfl
  · unfold applySpeed
    split
    · exact Or.inl rfl
    · exact Or.inr rfl

end VSC

namespace VSC

/-- Handle A of the spec scenarios: playing, visibility 0.2, rect 250 by 200
(area 50000), last interaction long expired. -/
def scenarioA : MediaEntry := ⟨0, false, 1/5, 250, 200, -9000, JSNum.fin 1, none, none⟩

/-- Handle B of the spec scenarios: paused, fully visible, rect 500 by 400
(area 200000), last interaction long expired. -/
def scenarioB : MediaEntry := ⟨1, true, 1, 500, 400, -9000, JSNum.fin 1, none, none⟩

/-- Handle B with an interaction 1000ms before the selection instant. -/
def scenarioBrecent : MediaEntry := ⟨1, true, 1, 500, 400, -1000, JSNum.fin 1, none, none⟩

/-- C5 (confirmed): the selection score is 1000 for a playing element plus
500 times the visibility ratio plus (5000 - elapsed)/10 while the last
interaction is under 5000ms old plus the rect area over 10000; the returned
entry always carries a maximal score; and on the spec's concrete scenarios
A scores 1105 against B's 520 and is selected, and A is still selected when
B was interacted with 1000ms ago and scores 920. -/
theorem score_formula_and_scenarios :
    (∀ (now : ℤ) (e : MediaEntry),
        score now e = (if e.paused then 0 else 1000) + e.visibility * 500
          + (if (now : ℚ) - (e.lastInteraction : ℚ) < 5000
             then (5000 - ((now : ℚ) - (e.lastInteraction : ℚ))) / 10 else 0)
          + e.rectW * e.rectH / 10000) ∧
    (∀ (now : ℤ) (b : MediaEntry) (l : List MediaEntry),
        ∀ x ∈ b :: l, score now x ≤ score now (bestEntry now b l)) ∧
    score 0 scenarioA = 1105 ∧ score 0 scenarioB = 520 ∧
    chooseActiveMedia 0 [scenarioA, scenarioB] = some scenarioA ∧
    score 0 scenarioBrecent = 920 ∧
    chooseActiveMedia 0 [scenarioA, scenarioBrecent] = some scenarioA := by
  refine ⟨?_, score_le_bestEntry, by decide, by decide, by decide, by decide,
    by decide⟩
  intro now e
  simp only [score]
  split <;> split <;> ring

/-- Witness for C5: the maximality conjunct applied with the concrete
scenario list, discharging the membership hypothesis. -/
theorem score_formula_and_scenarios_witness :
    score 0 scenarioB ≤ score 0 (bestEntry 0 scenarioA [scenarioB]) :=
  score_formula_and_scenarios.2.1 0 scenarioA [scenarioB] scenarioB (by decide)

/-- C6 counterexample: a forced apply of NaN is not clamped into
[0.25, 4.0]: Math.max and Math.min propagate NaN, so the rate the code
applies is NaN, not a value in range (in a real browser the NaN assignment
to playbackRate throws and is swallowed by the catch; either way no clamped
in-range value is produced, contrary to the claim). -/
theorem applySpeed_nan_counterexample :
    (applySpeed ⟨0, false, 0, 0, 0, 0, JSNum.fin 1, none, none⟩
        JSNum.nan true 0).playbackRate = JSNum.nan ∧
    inClampRange (applySpeed ⟨0, false, 0, 0, 0, 0, JSNum.fin 1, none, none⟩
        JSNum.nan true 0).playbackRate = false := by
  exact ⟨by decide, by decide⟩

/-- C6 (amended): a forced apply clamps finite rates into [0.25, 4.0]
(10.0 yields 4.0 and -1.0 yields 0.25, both in range) and clamps the two
infinities (positive infinity yields 4.0, negative infinity 0.25), but a
NaN rate is not clamped: it propagates through Math.max and Math.min
unchanged. -/
theorem applySpeed_clamping (e : MediaEntry) (now : ℤ) :
    (applySpeed e (JSNum.fin 10) true now).playbackRate = JSNum.fin 4 ∧
    (applySpeed e (JSNum.fin (-1)) true now).playbackRate = JSNum.fin (1/4) ∧
    (applySpeed e JSNum.posInf true now).playbackRate = JSNum.fin 4 ∧
    (applySpeed e JSNum.negInf true now).playbackRate = JSNum.fin (1/4) ∧
    (applySpeed e JSNum.nan true now).playbackRate = JSNum.nan ∧
    inClampRange (applySpeed e (JSNum.fin 10) true now).playbackRate = true ∧
    inClampRange (applySpeed e (JSNum.fin (-1)) true now).playbackRate = true := by
  have h : ∀ (s : JSNum), (applySpeed e s true now).playbackRate
      = clamp s (JSNum.fin (1/4)) (JSNum.fin 4) := by
    intro s
    simp [applySpeed]
  refine ⟨?_, ?_, ?_, ?_, ?_, ?_, ?_⟩ <;> rw [h] <;> decide

/-- C7 counterexample: applying rate 2.0 twice in immediate succession to a
fresh entry leaves preferredSpeed absent, not equal to 2.0: applySpeed
never records a preferred rate, so the claimed postcondition
preferredRate = r fails. -/
theorem apply_twice_preferred_counterexample :
    (applySpeed (applySpeed ⟨0, false, 0, 0, 0, 0, JSNum.fin 1, none, none⟩
        (JSNum.fin 2) false 0) (JSNum.fin 2) false 0).preferredSpeed = none ∧
    (none : Option JSNum) ≠ some (JSNum.fin 2) := by
  exact ⟨by decide, by decide⟩

/-- C7 (amended): when the first unforced apply goes through (no guard was
active) and the second lands inside the window the first one opened, the
second call is a complete no-op - the state after it equals the state after
the first call - and preferredSpeed keeps its prior value throughout, since
applySpeed never updates it (it equals r afterwards only if it already was
r before). -/
theorem applySpeed_twice_noop (e : MediaEntry) (r : ℚ) (t1 t2 : ℤ)
    (hguard : guardActive e t1 = false) (h1 : 0 ≤ t1) (h12 : t1 ≤ t2)
    (h2 : t2 < t1 + 500) :
    applySpeed (applySpeed e (JSNum.fin r) false t1) (JSNum.fin r) false t2
      = applySpeed e (JSNum.fin r) false t1 ∧
    (applySpeed (applySpeed e (JSNum.fin r) false t1) (JSNum.fin r) false
        t2).preferredSpeed = e.preferredSpeed := by
  have hfirst : applySpeed e (JSNum.fin r) false t1
      = { e with playbackRate := clamp (JSNum.fin r) (JSNum.fin (1/4)) (JSNum.fin 4),
                 antiResetUntil := some (t1 + 500) } := by
    simp [applySpeed, hguard]
  have hga : guardActive (applySpeed e (JSNum.fin r) false t1) t2 = true := by
    rw [hfirst]
    simp only [guardActive, Bool.and_eq_true, decide_eq_true_eq]
    omega
  have hsecond : applySpeed (applySpeed e (JSNum.fin r) false t1) (JSNum.fin r)
      false t2 = applySpeed e (JSNum.fin r) false t1 := by
    rw [applySpeed, hga]
    simp
  refine ⟨hsecond, ?_⟩
  rw [hsecond, hfirst]

/-- Witness for C7: a fresh entry, rate 2.0, both calls at instant 0. -/
theorem applySpeed_twice_noop_witness :
    (applySpeed (applySpeed ⟨1, false, 0, 0, 0, 0, JSNum.fin 1, some (JSNum.fin 1), none⟩
        (JSNum.fin 2) false 0) (JSNum.fin 2) false 0
      = applySpeed ⟨1, false, 0, 0, 0, 0, JSNum.fin 1, some (JSNum.fin 1), none⟩
        (JSNum.fin 2) false 0) ∧
    (applySpeed (applySpeed ⟨1, false, 0, 0, 0, 0, JSNum.fin 1, some (JSNum.fin 1), none⟩
        (JSNum.fin 2) false 0) (JSNum.fin 2) false 0).preferredSpeed
      = (⟨1, false, 0, 0, 0, 0, JSNum.fin 1, some (JSNum.fin 1), none⟩ : MediaEntry).preferredSpeed :=
  applySpeed_twice_noop ⟨1, false, 0, 0, 0, 0, JSNum.fin 1, some (JSNum.fin 1), none⟩
    2 0 0 (by decide) (by decide) (by decide) (by decide)

/-- The divergence test of any rate against itself never exceeds the 0.01
epsilon: for finite rates the difference is exactly 0, and for NaN or the
infinities the difference is NaN, which compares false. -/
theorem abs_sub_self_not_gt (v : JSNum) :
    ((v.sub v).abs).gt (JSNum.fin (1/100)) = false := by
  cases v with
  | nan => rfl
  | posInf => rfl
  | negInf => rfl
  | fin q =>
    simp only [JSNum.sub, JSNum.abs, JSNum.gt, JSNum.lt, sub_self, abs_zero,
      decide_eq_false_iff_not, not_lt]
    norm_num

/-- After a corrective write the handler state is a fixpoint: the written
rate equals the preferred rate exactly, so the divergence test fails at any
later instant and no further write happens. -/
theorem handleRateChange_after_write (e : MediaEntry) (now2 : ℤ) :
    handleRateChange { e with playbackRate := jsOr e.preferredSpeed (JSNum.fin 1) } now2
      = ({ e with playbackRate := jsOr e.preferredSpeed (JSNum.fin 1) }, false) := by
  have hx := abs_sub_self_not_gt (jsOr e.preferredSpeed (JSNum.fin 1))
  unfold handleRateChange
  dsimp only
  rw [hx]
  simp

/-- C8 (confirmed): a corrective write lands exactly on the preferred rate,
so the rate-change observation it triggers finds zero divergence (or a NaN
comparison, which is false) and performs no further write at any later
instant: the correction chain triggered by one external change stops after
a single write. -/
theorem correction_chain_terminates (e e2 : MediaEntry) (now : ℤ)
    (h : handleRateChange e now = (e2, true)) (now2 : ℤ) :
    handleRateChange e2 now2 = (e2, false) := by
  unfold handleRateChange at h
  split at h
  · dsimp only at h
    split at h
    · have he2 : e2 = { e with playbackRate := jsOr e.preferredSpeed (JSNum.fin 1) } :=
        (congrArg Prod.fst h).symm
      subst he2
      exact handleRateChange_after_write e now2
    · simp at h
  · simp at h

/-- Witness for C8: the corrective write of the C2 scenario, after which a
second observation at instant 400 performs no write. -/
theorem correction_chain_terminates_witness :
    handleRateChange
        ⟨0, false, 0, 0, 0, 0, JSNum.fin (3/2), some (JSNum.fin (3/2)), some 500⟩ 400
      = (⟨0, false, 0, 0, 0, 0, JSNum.fin (3/2), some (JSNum.fin (3/2)), some 500⟩,
          false) :=
  correction_chain_terminates
    ⟨0, false, 0, 0, 0, 0, JSNum.fin 1, some (JSNum.fin (3/2)), some 500⟩
    ⟨0, false, 0, 0, 0, 0, JSNum.fin (3/2), some (JSNum.fin (3/2)), some 500⟩
    100 (by decide) 400

/-- C10 (confirmed): applySpeed arms the guard without ever recording a
preferred speed, and for an entry whose preferredSpeed was never recorded
the handler falls back to 1.0 through `entry.preferredSpeed || 1.0`: inside
the window, any rate more than 0.01 away from 1.0 is rewritten to 1.0. -/
theorem guard_defaults_preferred_one (e : MediaEntry) (g now : ℤ) (r : ℚ)
    (hpref : e.preferredSpeed = none)
    (hg : e.antiResetUntil = some g) (hgpos : 0 < g) (hnow : now < g)
    (hr : e.playbackRate = JSNum.fin r) (hdiff : 1/100 < |r - 1|) :
    (∀ (s : JSNum) (f : Bool) (t : ℤ),
        (applySpeed e s f t).preferredSpeed = none) ∧
    handleRateChange e now = ({ e with playbackRate := JSNum.fin 1 }, true) := by
  constructor
  · intro s f t
    unfold applySpeed
    split
    · exact hpref
    · exact hpref
  · have hga : guardActive e now = true := by
      simp only [guardActive, hg, Bool.and_eq_true, decide_eq_true_eq]
      omega
    simp [handleRateChange, hga, hpref, jsOr, hr, JSNum.sub, JSNum.abs,
      JSNum.gt, JSNum.lt]
    linarith

/-- Witness for C10: an entry with no recorded preferred speed, deadline
500, current rate 2.0; at instant 100 the handler rewrites the rate to
1.0. -/
theorem guard_defaults_preferred_one_witness :
    (∀ (s : JSNum) (f : Bool) (t : ℤ),
        (applySpeed ⟨0, false, 0, 0, 0, 0, JSNum.fin 2, none, some 500⟩
          s f t).preferredSpeed = none) ∧
    handleRateChange ⟨0, false, 0, 0, 0, 0, JSNum.fin 2, none, some 500⟩ 100
      = (⟨0, false, 0, 0, 0, 0, JSNum.fin 1, none, some 500⟩, true) :=
  guard_defaults_preferred_one _ 500 100 2 rfl rfl (by norm_num) (by norm_num)
    rfl (by rw [show (2 : ℚ) - 1 = 1 by norm_num, abs_one]; norm_num)

end VSC
